import Mathlib

/-!
Verification of the Olist São Paulo dashboard pipeline
(`src/dashboard/dashboard.py`).

The development has two layers:

* a value-level embedding: each table is a typed list of rows, and the
  pipeline functions `filter_sao_paulo_data`, `process_monthly_data`,
  `calculate_payment_stats` and `calculate_review_stats` are translated
  line by line from the pandas code (boolean-mask selections become
  `List.filter`, `.isin` becomes `List.contains`, `.unique()` becomes
  `List.dedup`, a left `merge` becomes a flat map over the left table,
  `groupby(...).agg(mean)` becomes grouping over the distinct non-missing
  keys in pandas' sorted order);

* a store-level embedding (suffix `_st`): frames are generic rows living
  in an allocation store, pandas selections and merges allocate fresh
  frames and `df[col] = e` writes in place, so that frame (non-mutation)
  properties of the same functions can be stated and proved.
-/

namespace Dashboard

/-- A pandas `Timestamp`: calendar fields plus seconds within the day.
Chronological order is lexicographic on (year, month, day, sec). -/
structure Timestamp where
  year : Nat
  month : Nat
  day : Nat
  sec : Nat
deriving DecidableEq

/-- A python `datetime.date`, as produced by the streamlit date pickers. -/
structure Date where
  year : Nat
  month : Nat
  day : Nat
deriving DecidableEq

/-- `pd.Timestamp(d)` for a `date` `d`: midnight at the start of day `d`. -/
def dateToTs (d : Date) : Timestamp :=
  { year := d.year, month := d.month, day := d.day, sec := 0 }

/-- Chronological `≤` on timestamps (lexicographic). -/
def tsLe (a b : Timestamp) : Bool :=
  Nat.blt a.year b.year ||
    (a.year == b.year &&
      (Nat.blt a.month b.month ||
        (a.month == b.month &&
          (Nat.blt a.day b.day || (a.day == b.day && Nat.ble a.sec b.sec)))))

/-- Strict `<` on python dates (lexicographic), used by `start_date > end_date`. -/
def dateLt (a b : Date) : Bool :=
  Nat.blt a.year b.year ||
    (a.year == b.year &&
      (Nat.blt a.month b.month || (a.month == b.month && Nat.blt a.day b.day)))

/-- A row of `olist_orders_dataset.csv` after `load_data` parsed the
purchase timestamp. -/
structure OrderRow where
  order_id : Nat
  customer_id : Nat
  order_purchase_timestamp : Timestamp
deriving DecidableEq

/-- A row of `olist_customers_dataset.csv`. -/
structure CustomerRow where
  customer_id : Nat
  customer_city : String
  customer_state : String
deriving DecidableEq

/-- A row of `olist_order_payments_dataset.csv`. -/
structure PaymentRow where
  order_id : Nat
  payment_value : Rat
deriving DecidableEq

/-- A row of `olist_order_reviews_dataset.csv` after `load_data` parsed the
review creation date. -/
structure ReviewRow where
  order_id : Nat
  review_score : Rat
  review_creation_date : Timestamp
deriving DecidableEq

/-- An order row of `process_monthly_data`'s output: the input row plus the
derived `year_month` and `month` columns. -/
structure MonthlyRow where
  order_id : Nat
  customer_id : Nat
  order_purchase_timestamp : Timestamp
  year_month : Nat × Nat
  month : Nat
deriving DecidableEq

/-- `filter_sao_paulo_data(orders, customers, payments, reviews, start_date,
end_date)`: restrict customers to state `"SP"`, orders to those customers
and to purchase timestamps in `[pd.Timestamp(start_date),
pd.Timestamp(end_date)]`, then payments and reviews to the surviving
`order_id`s, and reviews additionally to creation dates in the same
timestamp interval. -/
def filter_sao_paulo_data (orders : List OrderRow) (customers : List CustomerRow)
    (payments : List PaymentRow) (reviews : List ReviewRow)
    (start_date end_date : Date) :
    List OrderRow × List PaymentRow × List ReviewRow :=
  let sao_paulo_customers :=
    ((customers.filter (fun c => c.customer_state == "SP")).map
      (fun c => c.customer_id)).dedup
  let sao_paulo_orders :=
    orders.filter (fun o => sao_paulo_customers.contains o.customer_id)
  let sao_paulo_orders_date_range :=
    sao_paulo_orders.filter (fun o =>
      tsLe (dateToTs start_date) o.order_purchase_timestamp &&
      tsLe o.order_purchase_timestamp (dateToTs end_date))
  let sp_order_ids := (sao_paulo_orders_date_range.map (fun o => o.order_id)).dedup
  let sp_payments := payments.filter (fun p => sp_order_ids.contains p.order_id)
  let sp_reviews := reviews.filter (fun r => sp_order_ids.contains r.order_id)
  let sp_reviews_date_range :=
    sp_reviews.filter (fun r =>
      tsLe (dateToTs start_date) r.review_creation_date &&
      tsLe r.review_creation_date (dateToTs end_date))
  (sao_paulo_orders_date_range, sp_payments, sp_reviews_date_range)

/-- `process_monthly_data(orders_filtered)`: copy the filtered orders and add
the derived `year_month` (`dt.to_period('M')`) and `month` (`dt.month`)
columns. -/
def process_monthly_data (orders_filtered : List OrderRow) : List MonthlyRow :=
  orders_filtered.map (fun o =>
    { order_id := o.order_id
      customer_id := o.customer_id
      order_purchase_timestamp := o.order_purchase_timestamp
      year_month := (o.order_purchase_timestamp.year, o.order_purchase_timestamp.month)
      month := o.order_purchase_timestamp.month })

/-- The left merge `payments_filtered.merge(monthly_data[['order_id','month']],
on='order_id', how='left')`: each payment row is paired with the `month` of
every monthly row sharing its `order_id`; a payment with no match keeps one
row whose `month` is missing (`none`, pandas `NaN`). -/
def mergePaymentsMonths (payments_filtered : List PaymentRow)
    (monthly_data : List MonthlyRow) : List (PaymentRow × Option Nat) :=
  payments_filtered.flatMap (fun p =>
    match monthly_data.filter (fun o => o.order_id == p.order_id) with
    | [] => [(p, none)]
    | ms => ms.map (fun o => (p, some o.month)))

/-- Arithmetic mean of a list of rationals (pandas `mean` over a group,
which is never empty). -/
def meanQ (l : List Rat) : Rat := l.sum / (l.length : Rat)

/-- `groupby('month').agg(mean).reset_index()` over rows carrying an optional
month key and a value: rows with a missing key are dropped (pandas
`dropna=True`), the distinct keys are listed in pandas' ascending order, and
each key is paired with the mean of its group's values. -/
def groupbyMeanMonth (rows : List (Option Nat × Rat)) : List (Nat × Rat) :=
  let keys := ((rows.filterMap (fun r => r.1)).dedup).mergeSort (fun a b => Nat.ble a b)
  keys.map (fun m =>
    (m, meanQ ((rows.filter (fun r => r.1 == some m)).map (fun r => r.2))))

/-- `pd.DataFrame({'month': range(1, 13)}).merge(stats, on='month',
how='left').fillna(0)`: one output row per month 1..12 in that order; a month
absent from `stats` gets value 0, a month present keeps its rows. -/
def mergeAllMonths (stats : List (Nat × Rat)) : List (Nat × Rat) :=
  (List.range' 1 12).flatMap (fun m =>
    match stats.filter (fun s => s.1 == m) with
    | [] => [(m, 0)]
    | l => l)

/-- `calculate_payment_stats(monthly_data, payments_filtered)`: left-merge
payments with the orders' months, group by month averaging `payment_value`,
then densify over months 1..12 with fill value 0. -/
def calculate_payment_stats (monthly_data : List MonthlyRow)
    (payments_filtered : List PaymentRow) : List (Nat × Rat) :=
  let payment_data := mergePaymentsMonths payments_filtered monthly_data
  let monthly_payment_stats :=
    groupbyMeanMonth (payment_data.map (fun r => (r.2, r.1.payment_value)))
  mergeAllMonths monthly_payment_stats

set_option linter.unusedVariables false in
/-- `calculate_review_stats(monthly_data, reviews_filtered)`: copy the
reviews, derive `month` from `review_creation_date`, group by month averaging
`review_score`, then densify over months 1..12 with fill value 0. The
`monthly_data` argument is taken but, as in the source, never used. -/
def calculate_review_stats (monthly_data : List MonthlyRow)
    (reviews_filtered : List ReviewRow) : List (Nat × Rat) :=
  let reviews_data :=
    reviews_filtered.map (fun r => (some r.review_creation_date.month, r.review_score))
  let monthly_review_stats := groupbyMeanMonth reviews_data
  mergeAllMonths monthly_review_stats

/-- The filter-and-aggregate pipeline exactly as `main` invokes it after its
validation and emptiness checks. -/
def run_pipeline (orders : List OrderRow) (customers : List CustomerRow)
    (payments : List PaymentRow) (reviews : List ReviewRow)
    (start_date end_date : Date) : List (Nat × Rat) × List (Nat × Rat) :=
  let f := filter_sao_paulo_data orders customers payments reviews start_date end_date
  let monthly_data := process_monthly_data f.1
  (calculate_payment_stats monthly_data f.2.1,
   calculate_review_stats monthly_data f.2.2)

/-- The three ways a render cycle of `main` can end once the data is loaded:
the inverted-window validation error, the "no data available" notice, or the
two statistics tables handed to the charts. -/
inductive MainOutcome where
  | invalidWindow
  | noData
  | ok (paymentStats reviewStats : List (Nat × Rat))
deriving DecidableEq

/-- The control flow of `main` between loading and charting: reject
`start_date > end_date`, run the scope filter, report no data when the
filtered orders are empty, otherwise aggregate. -/
def main_check (orders : List OrderRow) (customers : List CustomerRow)
    (payments : List PaymentRow) (reviews : List ReviewRow)
    (start_date end_date : Date) : MainOutcome :=
  if dateLt end_date start_date then .invalidWindow
  else
    let f := filter_sao_paulo_data orders customers payments reviews start_date end_date
    if f.1.length == 0 then .noData
    else
      let monthly_data := process_monthly_data f.1
      .ok (calculate_payment_stats monthly_data f.2.1)
        (calculate_review_stats monthly_data f.2.2)

/-! ### The store-level embedding

pandas data frames are heap objects: a selection, a merge or a `.copy()`
allocates a fresh frame, while `df[col] = e` mutates `df` in place.  To
state that the pipeline functions leave their input tables unchanged, the
same four functions are embedded once more over an explicit store of
frames; a frame is a list of generic rows (column name to value). -/

/-- A cell value of a generic frame: the column types occurring in the
dashboard's tables, plus `na` for pandas missing values. -/
inductive Val where
  | nat : Nat → Val
  | str : String → Val
  | rat : Rat → Val
  | ts : Timestamp → Val
  | period : Nat → Nat → Val
  | na : Val
deriving DecidableEq

/-- A generic row: column names bound to values, newest binding first. -/
abbrev GRow := List (String × Val)

/-- A generic frame: a list of generic rows. -/
abbrev Frame := List GRow

/-- The store of allocated frames, addressed by position. -/
abbrev Store := List Frame

/-- Read the frame at an address (an unallocated address reads as empty). -/
def Store.read (s : Store) (a : Nat) : Frame := (s[a]?).getD []

/-- Overwrite the frame at an address in place. -/
def Store.write (s : Store) (a : Nat) (f : Frame) : Store := s.set a f

/-- Allocate a fresh frame, returning its address. -/
def Store.alloc (s : Store) (f : Frame) : Store × Nat := (s ++ [f], s.length)

/-- The value of a row at a column (`na` when the column is absent). -/
def getV (r : GRow) (c : String) : Val :=
  ((r.find? (fun p => p.1 == c)).map (fun p => p.2)).getD .na

/-- Column assignment `df[c] = g(row)`: rebind `c` in every row. -/
def setColV (f : Frame) (c : String) (g : GRow → Val) : Frame :=
  f.map (fun r => (c, g r) :: r)

/-- `≤` on timestamp cells; comparisons against missing values are false,
as in pandas. -/
def vtsLe : Val → Val → Bool
  | .ts a, .ts b => tsLe a b
  | _, _ => false

/-- `dt.month` of a timestamp cell. -/
def monthV : Val → Val
  | .ts t => .nat t.month
  | _ => .na

/-- `dt.to_period('M')` of a timestamp cell. -/
def periodV : Val → Val
  | .ts t => .period t.year t.month
  | _ => .na

/-- The numeric content of a cell, for aggregation. -/
def ratOfV : Val → Rat
  | .rat q => q
  | .nat n => (n : Rat)
  | _ => 0

/-- `groupby(key).agg(out=(valcol, 'mean')).reset_index()` on a generic
frame: rows whose key is missing are dropped, each remaining distinct key
becomes one row with the mean of its group's `valcol`. -/
def groupbyMeanV (f : Frame) (key valcol outcol : String) : Frame :=
  let ks := ((f.map (fun r => getV r key)).filter (fun v => !(v == Val.na))).dedup
  ks.map (fun k =>
    [(key, k),
     (outcol, Val.rat (meanQ ((f.filter (fun r => getV r key == k)).map
       (fun r => ratOfV (getV r valcol)))))])

/-- Left merge of `base` with a one-column extension `ext` on column `k`:
every row of `base` is paired with the `col` value of each matching row of
`ext`, or with a missing `col` when no row matches. -/
def leftMergeCol (base ext : Frame) (k col : String) : Frame :=
  base.flatMap (fun r =>
    match ext.filter (fun q => getV q k == getV r k) with
    | [] => [(col, Val.na) :: r]
    | ms => ms.map (fun q => (col, getV q col) :: r))

/-- `fillna(0)` on a generic frame. -/
def fillnaZero (f : Frame) : Frame :=
  f.map (fun r => r.map (fun p => if p.2 == Val.na then (p.1, Val.rat 0) else p))

/-- The frame `pd.DataFrame({'month': range(1, 13)})`. -/
def allMonthsFrame : Frame :=
  (List.range' 1 12).map (fun m => [("month", Val.nat m)])

/-- Store-level `filter_sao_paulo_data`: the same selections as the
value-level embedding, on generic frames; the three results are freshly
allocated and no argument frame is written. -/
def filter_sao_paulo_data_st (s : Store) (orders customers payments reviews : Nat)
    (start_date end_date : Date) : Store × (Nat × Nat × Nat) :=
  let sao_paulo_customers :=
    (((s.read customers).filter (fun r => getV r "customer_state" == .str "SP")).map
      (fun r => getV r "customer_id")).dedup
  let sao_paulo_orders :=
    (s.read orders).filter (fun r => sao_paulo_customers.contains (getV r "customer_id"))
  let sao_paulo_orders_date_range :=
    sao_paulo_orders.filter (fun r =>
      vtsLe (.ts (dateToTs start_date)) (getV r "order_purchase_timestamp") &&
      vtsLe (getV r "order_purchase_timestamp") (.ts (dateToTs end_date)))
  let sp_order_ids := (sao_paulo_orders_date_range.map (fun r => getV r "order_id")).dedup
  let sp_payments :=
    (s.read payments).filter (fun r => sp_order_ids.contains (getV r "order_id"))
  let sp_reviews :=
    (s.read reviews).filter (fun r => sp_order_ids.contains (getV r "order_id"))
  let sp_reviews_date_range :=
    sp_reviews.filter (fun r =>
      vtsLe (.ts (dateToTs start_date)) (getV r "review_creation_date") &&
      vtsLe (getV r "review_creation_date") (.ts (dateToTs end_date)))
  let (s, aOrders) := s.alloc sao_paulo_orders_date_range
  let (s, aPayments) := s.alloc sp_payments
  let (s, aReviews) := s.alloc sp_reviews_date_range
  (s, (aOrders, aPayments, aReviews))

/-- Store-level `process_monthly_data`: `.copy()` allocates a fresh frame
and the two derived columns are written to that copy. -/
def process_monthly_data_st (s : Store) (orders_filtered : Nat) : Store × Nat :=
  let (s, monthly_data) := s.alloc (s.read orders_filtered)
  let s := s.write monthly_data
    (setColV (s.read monthly_data) "year_month"
      (fun r => periodV (getV r "order_purchase_timestamp")))
  let s := s.write monthly_data
    (setColV (s.read monthly_data) "month"
      (fun r => monthV (getV r "order_purchase_timestamp")))
  (s, monthly_data)

/-- Store-level `calculate_payment_stats`: merge, group, densify — every
intermediate is a fresh frame, the result is freshly allocated and no
argument frame is written. -/
def calculate_payment_stats_st (s : Store) (monthly_data payments_filtered : Nat) :
    Store × Nat :=
  let payment_data :=
    leftMergeCol (s.read payments_filtered)
      ((s.read monthly_data).map (fun r =>
        [("order_id", getV r "order_id"), ("month", getV r "month")]))
      "order_id" "month"
  let monthly_payment_stats := groupbyMeanV payment_data "month" "payment_value" "avg_payment"
  let merged := leftMergeCol allMonthsFrame monthly_payment_stats "month" "avg_payment"
  s.alloc (fillnaZero merged)

set_option linter.unusedVariables false in
/-- Store-level `calculate_review_stats`: `.copy()` allocates a fresh
frame, the derived `month` column is written to that copy, and the grouped,
densified result is freshly allocated. -/
def calculate_review_stats_st (s : Store) (monthly_data reviews_filtered : Nat) :
    Store × Nat :=
  let (s, reviews_data) := s.alloc (s.read reviews_filtered)
  let s := s.write reviews_data
    (setColV (s.read reviews_data) "month"
      (fun r => monthV (getV r "review_creation_date")))
  let monthly_review_stats :=
    groupbyMeanV (s.read reviews_data) "month" "review_score" "avg_score"
  let merged := leftMergeCol allMonthsFrame monthly_review_stats "month" "avg_score"
  s.alloc (fillnaZero merged)

/-- The store-level filter-and-aggregate pipeline as `main` invokes it:
filter, derive months, aggregate payments and reviews; returns the
addresses of the two statistics frames. -/
def run_pipeline_st (s : Store) (orders customers payments reviews : Nat)
    (start_date end_date : Date) : Store × (Nat × Nat) :=
  let t1 := filter_sao_paulo_data_st s orders customers payments reviews
    start_date end_date
  let t2 := process_monthly_data_st t1.1 t1.2.1
  let t3 := calculate_payment_stats_st t2.1 t2.2 t1.2.2.1
  let t4 := calculate_review_stats_st t3.1 t2.2 t1.2.2.2
  (t4.1, (t3.2, t4.2))

/-! ### Helper lemmas -/

theorem find?_eq_head?_filter {α : Type} (p : α → Bool) :
    ∀ l : List α, l.find? p = (l.filter p).head? := by
  intro l
  induction l with
  | nil => rfl
  | cons x t ih =>
    by_cases hx : p x = true
    · rw [List.find?_cons_of_pos t hx, @List.filter_cons_of_pos _ p x t hx]
      rfl
    · rw [List.find?_cons_of_neg t hx, @List.filter_cons_of_neg _ p x t hx]
      exact ih

theorem nodup_filter_key {α : Type} (k : α → Nat) :
    ∀ (l : List α) (m : Nat), (l.map k).Nodup →
      l.filter (fun x => k x == m) = [] ∨
      ∃ u, l.filter (fun x => k x == m) = [u] ∧ k u = m := by
  intro l
  induction l with
  | nil => intro m _; left; rfl
  | cons x t ih =>
    intro m hnd
    simp only [List.map_cons, List.nodup_cons] at hnd
    obtain ⟨hx, ht⟩ := hnd
    by_cases hxm : k x = m
    · right
      refine ⟨x, ?_, hxm⟩
      have htail : t.filter (fun y => k y == m) = [] := by
        rw [List.filter_eq_nil_iff]
        intro a ha hka
        apply hx
        rw [beq_iff_eq] at hka
        exact (hxm ▸ hka ▸ List.mem_map_of_mem k ha)
      have hb : (fun y => k y == m) x = true := by
        simp only [beq_iff_eq]
        exact hxm
      rw [@List.filter_cons_of_pos _ (fun y => k y == m) x t hb, htail]
    · have hb : ¬((fun y => k y == m) x = true) := by
        simp only [beq_iff_eq]
        exact hxm
      rw [@List.filter_cons_of_neg _ (fun y => k y == m) x t hb]
      exact ih m ht

theorem mergeAllMonths_map_fst (stats : List (Nat × Rat))
    (hnd : (stats.map Prod.fst).Nodup) :
    (mergeAllMonths stats).map Prod.fst = List.range' 1 12 := by
  unfold mergeAllMonths
  generalize List.range' 1 12 = months
  induction months with
  | nil => rfl
  | cons m t ih =>
    rw [List.flatMap_cons, List.map_append, ih]
    rcases nodup_filter_key Prod.fst stats m hnd with h | ⟨u, h, hu⟩
    · rw [h]
      rfl
    · rw [h]
      obtain ⟨u1, u2⟩ := u
      simp only [Prod.fst] at hu
      simp [hu]

theorem groupbyMeanMonth_map_fst (rows : List (Option Nat × Rat)) :
    (groupbyMeanMonth rows).map Prod.fst =
      ((rows.filterMap (fun r => r.1)).dedup).mergeSort (fun a b => Nat.ble a b) := by
  unfold groupbyMeanMonth
  rw [List.map_map]
  show List.map id _ = _
  exact List.map_id _

theorem groupbyMeanMonth_fst_nodup (rows : List (Option Nat × Rat)) :
    ((groupbyMeanMonth rows).map Prod.fst).Nodup := by
  rw [groupbyMeanMonth_map_fst]
  exact (List.mergeSort_perm (rows.filterMap Prod.fst).dedup _).symm.nodup
    (List.nodup_dedup _)

theorem mergeAll_groupby_fst (rows : List (Option Nat × Rat)) :
    (mergeAllMonths (groupbyMeanMonth rows)).map Prod.fst = List.range' 1 12 :=
  mergeAllMonths_map_fst _ (groupbyMeanMonth_fst_nodup rows)

theorem filter_orders_eq (orders : List OrderRow) (customers : List CustomerRow)
    (payments : List PaymentRow) (reviews : List ReviewRow) (start_date end_date : Date) :
    (filter_sao_paulo_data orders customers payments reviews start_date end_date).1 =
      (orders.filter (fun o =>
        (((customers.filter (fun c => c.customer_state == "SP")).map
          (fun c => c.customer_id)).dedup).contains o.customer_id)).filter (fun o =>
            tsLe (dateToTs start_date) o.order_purchase_timestamp &&
            tsLe o.order_purchase_timestamp (dateToTs end_date)) := rfl

theorem filter_payments_eq (orders : List OrderRow) (customers : List CustomerRow)
    (payments : List PaymentRow) (reviews : List ReviewRow) (start_date end_date : Date) :
    (filter_sao_paulo_data orders customers payments reviews start_date end_date).2.1 =
      payments.filter (fun p =>
        ((((filter_sao_paulo_data orders customers payments reviews start_date
          end_date).1).map (fun o => o.order_id)).dedup).contains p.order_id) := rfl

theorem filter_reviews_eq (orders : List OrderRow) (customers : List CustomerRow)
    (payments : List PaymentRow) (reviews : List ReviewRow) (start_date end_date : Date) :
    (filter_sao_paulo_data orders customers payments reviews start_date end_date).2.2 =
      (reviews.filter (fun r =>
        ((((filter_sao_paulo_data orders customers payments reviews start_date
          end_date).1).map (fun o => o.order_id)).dedup).contains r.order_id)).filter
            (fun r =>
              tsLe (dateToTs start_date) r.review_creation_date &&
              tsLe r.review_creation_date (dateToTs end_date)) := rfl

/-! ### The claims -/

/-- Claim C1: for every (region, window) input, each monthly aggregation
(`calculate_payment_stats` and `calculate_review_stats`) returns exactly 12
buckets, one per month 1..12, sorted ascending by month number, with no
duplicate month values, regardless of how many underlying rows matched the
filter.  The month column of both outputs is exactly `[1, 2, ..., 12]`
(`List.range' 1 12`), which has length 12, is strictly ascending, and has
no duplicates. -/
theorem monthly_stats_dense_sorted_months (monthly_data : List MonthlyRow)
    (payments_filtered : List PaymentRow) (reviews_filtered : List ReviewRow) :
    (calculate_payment_stats monthly_data payments_filtered).map Prod.fst =
        List.range' 1 12 ∧
      (calculate_review_stats monthly_data reviews_filtered).map Prod.fst =
        List.range' 1 12 ∧
      (calculate_payment_stats monthly_data payments_filtered).length = 12 ∧
      (calculate_review_stats monthly_data reviews_filtered).length = 12 ∧
      ((calculate_payment_stats monthly_data payments_filtered).map Prod.fst).Sorted
        (· < ·) ∧
      ((calculate_payment_stats monthly_data payments_filtered).map Prod.fst).Nodup := by
  have hp : (calculate_payment_stats monthly_data payments_filtered).map Prod.fst =
      List.range' 1 12 := mergeAll_groupby_fst _
  have hr : (calculate_review_stats monthly_data reviews_filtered).map Prod.fst =
      List.range' 1 12 := mergeAll_groupby_fst _
  refine ⟨hp, hr, ?_, ?_, ?_, ?_⟩
  · have := congrArg List.length hp
    simpa using this
  · have := congrArg List.length hr
    simpa using this
  · rw [hp]
    exact List.pairwise_lt_range' 1 12
  · rw [hp]
    exact List.nodup_range' 1 12

/-- Claim C3, counterexample: the claim asserts that an order purchased at
2018-01-31 23:59:00 (86340 seconds into the day) is kept by the window
`DateRange(2018-01-01, 2018-01-31)`.  On the code it is not:
`pd.Timestamp(end_date)` is midnight at the start of the end day, so the
filtered order list is empty for a São Paulo order purchased at that
instant. -/
theorem filter_endday_order_excluded_cex :
    (filter_sao_paulo_data
      [{ order_id := 1, customer_id := 10,
         order_purchase_timestamp := ⟨2018, 1, 31, 86340⟩ }]
      [{ customer_id := 10, customer_city := "sao paulo", customer_state := "SP" }]
      [] [] ⟨2018, 1, 1⟩ ⟨2018, 1, 31⟩).1 = [] := by decide

/-- Claim C3, amended: the scope filter keeps exactly the orders of a São
Paulo customer whose purchase timestamp lies in
`[pd.Timestamp(start), pd.Timestamp(end)]`, both bounds being midnight at
the start of their day — so the end bound admits only the first instant of
the end day, an order purchased 2018-01-31 23:59:00 is excluded by
`DateRange(2018-01-01, 2018-01-31)` and one purchased 2018-02-01 is also
excluded. -/
theorem filter_orders_mem_iff (orders : List OrderRow) (customers : List CustomerRow)
    (payments : List PaymentRow) (reviews : List ReviewRow)
    (start_date end_date : Date) (o : OrderRow) :
    o ∈ (filter_sao_paulo_data orders customers payments reviews
        start_date end_date).1 ↔
      o ∈ orders ∧
      (∃ c ∈ customers, c.customer_state = "SP" ∧ c.customer_id = o.customer_id) ∧
      tsLe (dateToTs start_date) o.order_purchase_timestamp = true ∧
      tsLe o.order_purchase_timestamp (dateToTs end_date) = true := by
  rw [filter_orders_eq]
  simp only [List.mem_filter, List.contains_iff_exists_mem_beq, List.mem_dedup,
    List.mem_map, Bool.and_eq_true, beq_iff_eq]
  constructor
  · rintro ⟨⟨ho, ⟨cid, ⟨⟨c, hc, rfl⟩, hcid⟩⟩⟩, h1, h2⟩
    exact ⟨ho, ⟨c, hc.1, hc.2, hcid.symm⟩, h1, h2⟩
  · rintro ⟨ho, ⟨c, hc, hcsp, hcid⟩, h1, h2⟩
    exact ⟨⟨ho, ⟨c.customer_id, ⟨c, ⟨hc, hcsp⟩, rfl⟩, hcid.symm⟩⟩, h1, h2⟩

/-- Claim C5: the scope filter is a pure narrowing — every returned order,
payment and review row is a row of the corresponding input table, and every
returned payment and review references the `order_id` of some returned
order. -/
theorem filter_pure_narrowing (orders : List OrderRow) (customers : List CustomerRow)
    (payments : List PaymentRow) (reviews : List ReviewRow)
    (start_date end_date : Date) :
    (∀ o ∈ (filter_sao_paulo_data orders customers payments reviews
        start_date end_date).1, o ∈ orders) ∧
    (∀ p ∈ (filter_sao_paulo_data orders customers payments reviews
        start_date end_date).2.1, p ∈ payments) ∧
    (∀ r ∈ (filter_sao_paulo_data orders customers payments reviews
        start_date end_date).2.2, r ∈ reviews) ∧
    (∀ p ∈ (filter_sao_paulo_data orders customers payments reviews
        start_date end_date).2.1,
      ∃ o ∈ (filter_sao_paulo_data orders customers payments reviews
        start_date end_date).1, o.order_id = p.order_id) ∧
    (∀ r ∈ (filter_sao_paulo_data orders customers payments reviews
        start_date end_date).2.2,
      ∃ o ∈ (filter_sao_paulo_data orders customers payments reviews
        start_date end_date).1, o.order_id = r.order_id) := by
  refine ⟨?_, ?_, ?_, ?_, ?_⟩
  · intro o ho
    rw [filter_orders_eq] at ho
    exact List.mem_of_mem_filter (List.mem_of_mem_filter ho)
  · intro p hp
    rw [filter_payments_eq] at hp
    exact List.mem_of_mem_filter hp
  · intro r hr
    rw [filter_reviews_eq] at hr
    exact List.mem_of_mem_filter (List.mem_of_mem_filter hr)
  · intro p hp
    rw [filter_payments_eq] at hp
    rw [List.mem_filter] at hp
    obtain ⟨-, hid⟩ := hp
    rw [List.contains_iff_exists_mem_beq] at hid
    obtain ⟨a, ha, hab⟩ := hid
    rw [List.mem_dedup, List.mem_map] at ha
    obtain ⟨o, ho, rfl⟩ := ha
    exact ⟨o, ho, (beq_iff_eq.mp hab).symm⟩
  · intro r hr
    rw [filter_reviews_eq] at hr
    have hr1 := List.mem_of_mem_filter hr
    rw [List.mem_filter] at hr1
    obtain ⟨-, hid⟩ := hr1
    rw [List.contains_iff_exists_mem_beq] at hid
    obtain ⟨a, ha, hab⟩ := hid
    rw [List.mem_dedup, List.mem_map] at ha
    obtain ⟨o, ho, rfl⟩ := ha
    exact ⟨o, ho, (beq_iff_eq.mp hab).symm⟩

/-- Claim C6: a review appears in the filtered reviews if and only if it is
an input review whose `order_id` belongs to the filtered order set and whose
own `review_creation_date` satisfies the same window predicate the orders
were filtered with (the double filter by parent order and by the review's
own date). -/
theorem filter_reviews_mem_iff (orders : List OrderRow) (customers : List CustomerRow)
    (payments : List PaymentRow) (reviews : List ReviewRow)
    (start_date end_date : Date) (r : ReviewRow) :
    r ∈ (filter_sao_paulo_data orders customers payments reviews
        start_date end_date).2.2 ↔
      r ∈ reviews ∧
      (∃ o ∈ (filter_sao_paulo_data orders customers payments reviews
        start_date end_date).1, o.order_id = r.order_id) ∧
      tsLe (dateToTs start_date) r.review_creation_date = true ∧
      tsLe r.review_creation_date (dateToTs end_date) = true := by
  rw [filter_reviews_eq]
  simp only [List.mem_filter, List.contains_iff_exists_mem_beq, List.mem_dedup,
    List.mem_map, Bool.and_eq_true, beq_iff_eq]
  constructor
  · rintro ⟨⟨hmem, ⟨a, ⟨o, ho, rfl⟩, hab⟩⟩, h1, h2⟩
    exact ⟨hmem, ⟨o, ho, hab.symm⟩, h1, h2⟩
  · rintro ⟨hmem, ⟨o, ho, hoid⟩, h1, h2⟩
    exact ⟨⟨hmem, ⟨o.order_id, ⟨o, ho, rfl⟩, hoid.symm⟩⟩, h1, h2⟩

/-- Claim C8: when zero orders match the region and window, the scope filter
returns empty collections for all three tables rather than raising, and
`main` treats the empty result as the normal "no data" outcome, not a
fault. -/
theorem filter_empty_result_not_error (orders : List OrderRow)
    (customers : List CustomerRow) (payments : List PaymentRow)
    (reviews : List ReviewRow) (start_date end_date : Date)
    (hempty : (filter_sao_paulo_data orders customers payments reviews
      start_date end_date).1 = [])
    (hwin : dateLt end_date start_date = false) :
    filter_sao_paulo_data orders customers payments reviews start_date end_date =
        ([], [], []) ∧
      main_check orders customers payments reviews start_date end_date =
        .noData := by
  have hpay : (filter_sao_paulo_data orders customers payments reviews
      start_date end_date).2.1 = [] := by
    rw [filter_payments_eq, hempty]
    simp
  have hrev : (filter_sao_paulo_data orders customers payments reviews
      start_date end_date).2.2 = [] := by
    rw [filter_reviews_eq, hempty]
    simp
  constructor
  · rw [Prod.ext_iff, Prod.ext_iff]
    exact ⟨hempty, hpay, hrev⟩
  · simp [main_check, hwin, hempty]

/-- Claim C8, witness: a concrete dataset whose only customer is outside
São Paulo, with a valid window, runs through the theorem. -/
theorem filter_empty_result_not_error_witness :
    filter_sao_paulo_data
        [{ order_id := 1, customer_id := 10,
           order_purchase_timestamp := ⟨2018, 3, 5, 0⟩ }]
        [{ customer_id := 10, customer_city := "rio de janeiro",
           customer_state := "RJ" }]
        [{ order_id := 1, payment_value := 5 }]
        [{ order_id := 1, review_score := 4,
           review_creation_date := ⟨2018, 3, 6, 0⟩ }]
        ⟨2018, 1, 1⟩ ⟨2018, 12, 31⟩ = ([], [], []) ∧
      main_check
        [{ order_id := 1, customer_id := 10,
           order_purchase_timestamp := ⟨2018, 3, 5, 0⟩ }]
        [{ customer_id := 10, customer_city := "rio de janeiro",
           customer_state := "RJ" }]
        [{ order_id := 1, payment_value := 5 }]
        [{ order_id := 1, review_score := 4,
           review_creation_date := ⟨2018, 3, 6, 0⟩ }]
        ⟨2018, 1, 1⟩ ⟨2018, 12, 31⟩ = .noData :=
  filter_empty_result_not_error _ _ _ _ _ _ (by decide) (by decide)

/-- The month a payment row is bucketed into: the derived month of the
(unique) order row carrying its `order_id`, if any. -/
def paymentMonth (monthly_data : List MonthlyRow) (p : PaymentRow) : Option Nat :=
  (monthly_data.find? (fun o => o.order_id == p.order_id)).map (fun o => o.month)

theorem mergePaymentsMonths_eq_map (monthly_data : List MonthlyRow)
    (hnd : (monthly_data.map (fun o => o.order_id)).Nodup) :
    ∀ pf : List PaymentRow,
      mergePaymentsMonths pf monthly_data =
        pf.map (fun p => (p, paymentMonth monthly_data p)) := by
  intro pf
  induction pf with
  | nil => rfl
  | cons p t ih =>
    rw [mergePaymentsMonths, List.flatMap_cons, ← mergePaymentsMonths, ih,
      List.map_cons]
    rcases nodup_filter_key (fun o : MonthlyRow => o.order_id) monthly_data
        p.order_id hnd with h | ⟨u, h, hu⟩
    · rw [h]
      have : paymentMonth monthly_data p = none := by
        rw [paymentMonth, find?_eq_head?_filter, h]
        rfl
      rw [this]
      rfl
    · rw [h]
      have : paymentMonth monthly_data p = some u.month := by
        rw [paymentMonth, find?_eq_head?_filter, h]
        rfl
      rw [this]
      rfl

theorem find?_of_mem_nodup :
    ∀ (l : List (Nat × Rat)) (m : Nat) (v : Rat),
      (l.map Prod.fst).Nodup → (m, v) ∈ l →
      l.find? (fun s => s.1 == m) = some (m, v) := by
  intro l
  induction l with
  | nil => intro m v _ hmem; cases hmem
  | cons x t ih =>
    intro m v hnd hmem
    simp only [List.map_cons, List.nodup_cons] at hnd
    obtain ⟨hx, ht⟩ := hnd
    by_cases hxm : x.1 = m
    · have hb : (fun s : Nat × Rat => s.1 == m) x = true := by
        simp only [beq_iff_eq]
        exact hxm
      rw [List.find?_cons_of_pos t hb]
      rcases List.mem_cons.mp hmem with h | h
      · rw [← h]
      · exfalso
        apply hx
        have hm' : (m, v).1 ∈ t.map Prod.fst := List.mem_map_of_mem Prod.fst h
        rw [hxm]
        simpa using hm'
    · have hb : ¬((fun s : Nat × Rat => s.1 == m) x = true) := by
        simp only [beq_iff_eq]
        exact hxm
      rw [List.find?_cons_of_neg t hb]
      rcases List.mem_cons.mp hmem with h | h
      · exact absurd (congrArg Prod.fst h.symm) hxm
      · exact ih m v ht h

theorem mem_mergeAllMonths_of_mem (stats : List (Nat × Rat))
    (hnd : (stats.map Prod.fst).Nodup) (m : Nat) (v : Rat)
    (hm1 : 1 ≤ m) (hm2 : m ≤ 12) (hmem : (m, v) ∈ stats) :
    (m, v) ∈ mergeAllMonths stats := by
  unfold mergeAllMonths
  rw [List.mem_flatMap]
  refine ⟨m, List.mem_range'_1.mpr ⟨hm1, by omega⟩, ?_⟩
  rcases nodup_filter_key (Prod.fst) stats m hnd with h | ⟨u, h, hu⟩
  · exfalso
    have : (m, v) ∈ stats.filter (fun s => s.1 == m) :=
      List.mem_filter.mpr ⟨hmem, by simp⟩
    rw [h] at this
    cases this
  · have hin : (m, v) ∈ stats.filter (fun s => s.1 == m) :=
      List.mem_filter.mpr ⟨hmem, by simp⟩
    rw [h] at hin
    rw [h]
    exact hin

theorem mem_mergeAllMonths_zero (stats : List (Nat × Rat)) (m : Nat)
    (hm1 : 1 ≤ m) (hm2 : m ≤ 12)
    (habs : stats.filter (fun s => s.1 == m) = []) :
    (m, 0) ∈ mergeAllMonths stats := by
  unfold mergeAllMonths
  rw [List.mem_flatMap]
  refine ⟨m, List.mem_range'_1.mpr ⟨hm1, by omega⟩, ?_⟩
  rw [habs]
  exact List.mem_singleton.mpr rfl

/-- Claim C2: in the output of `calculate_payment_stats`, for every month
1..12 (assuming the monthly order table has unique `order_id`s, the data
model's key invariant): if zero filtered payment rows map to that month the
bucket's `avg_payment` is exactly 0, and if `k > 0` rows map to it with
payment values summing to `S` the bucket's `avg_payment` is `S / k`. -/
theorem payment_avg_zero_or_mean (monthly_data : List MonthlyRow)
    (payments_filtered : List PaymentRow) (m : Nat)
    (hnd : (monthly_data.map (fun o => o.order_id)).Nodup)
    (hm1 : 1 ≤ m) (hm2 : m ≤ 12) :
    (payments_filtered.filter (fun p => paymentMonth monthly_data p == some m) = [] →
      (calculate_payment_stats monthly_data payments_filtered).find?
        (fun s => s.1 == m) = some (m, 0)) ∧
    (payments_filtered.filter (fun p => paymentMonth monthly_data p == some m) ≠ [] →
      (calculate_payment_stats monthly_data payments_filtered).find?
        (fun s => s.1 == m) =
        some (m,
          ((payments_filtered.filter
              (fun p => paymentMonth monthly_data p == some m)).map
            (fun p => p.payment_value)).sum /
          ((payments_filtered.filter
              (fun p => paymentMonth monthly_data p == some m)).length : Rat))) := by
  have hrows : (mergePaymentsMonths payments_filtered monthly_data).map
      (fun r => (r.2, r.1.payment_value)) =
      payments_filtered.map (fun p => (paymentMonth monthly_data p, p.payment_value)) := by
    rw [mergePaymentsMonths_eq_map monthly_data hnd, List.map_map]
    rfl
  have hcps : calculate_payment_stats monthly_data payments_filtered =
      mergeAllMonths (groupbyMeanMonth
        (payments_filtered.map (fun p => (paymentMonth monthly_data p, p.payment_value)))) := by
    show mergeAllMonths (groupbyMeanMonth
      ((mergePaymentsMonths payments_filtered monthly_data).map
        (fun r => (r.2, r.1.payment_value)))) = _
    rw [hrows]
  set rows := payments_filtered.map
    (fun p => (paymentMonth monthly_data p, p.payment_value)) with hrowsdef
  set mp := payments_filtered.filter
    (fun p => paymentMonth monthly_data p == some m) with hmpdef
  have houtnodup : ((mergeAllMonths (groupbyMeanMonth rows)).map Prod.fst).Nodup := by
    rw [mergeAll_groupby_fst]
    exact List.nodup_range' 1 12
  have hstatnodup := groupbyMeanMonth_fst_nodup rows
  have hkeys_iff : m ∈ (rows.filterMap (fun r => r.1)) ↔ mp ≠ [] := by
    rw [hrowsdef, List.filterMap_map, List.mem_filterMap]
    constructor
    · rintro ⟨p, hp, hpm⟩
      intro hemp
      have : p ∈ mp := List.mem_filter.mpr ⟨hp, by simpa using hpm⟩
      rw [hemp] at this
      cases this
    · intro hne
      obtain ⟨p, hp⟩ := List.exists_mem_of_ne_nil mp hne
      rw [hmpdef, List.mem_filter] at hp
      exact ⟨p, hp.1, by simpa using hp.2⟩
  have hvals : (rows.filter (fun r => r.1 == some m)).map (fun r => r.2) =
      mp.map (fun p => p.payment_value) := by
    rw [hrowsdef, hmpdef, List.filter_map, List.map_map]
    rfl
  constructor
  · intro hemp
    have hnk : m ∉ (groupbyMeanMonth rows).map Prod.fst := by
      rw [groupbyMeanMonth_map_fst]
      rw [(List.mergeSort_perm _ _).mem_iff, List.mem_dedup]
      rw [hkeys_iff]
      simp [hemp]
    have hfil : (groupbyMeanMonth rows).filter (fun s => s.1 == m) = [] := by
      rw [List.filter_eq_nil_iff]
      intro s hs hsm
      apply hnk
      rw [beq_iff_eq] at hsm
      exact hsm ▸ List.mem_map_of_mem Prod.fst hs
    rw [hcps]
    exact find?_of_mem_nodup _ m 0 houtnodup
      (mem_mergeAllMonths_zero _ m hm1 hm2 hfil)
  · intro hne
    have hk : m ∈ ((rows.filterMap (fun r => r.1)).dedup).mergeSort
        (fun a b => Nat.ble a b) := by
      rw [(List.mergeSort_perm _ _).mem_iff, List.mem_dedup]
      exact hkeys_iff.mpr hne
    have hmean : (m, meanQ ((rows.filter (fun r => r.1 == some m)).map
        (fun r => r.2))) ∈ groupbyMeanMonth rows := by
      unfold groupbyMeanMonth
      exact List.mem_map_of_mem _ hk
    have hmean2 : (m, (mp.map (fun p => p.payment_value)).sum / (mp.length : Rat)) ∈
        groupbyMeanMonth rows := by
      have : meanQ ((rows.filter (fun r => r.1 == some m)).map (fun r => r.2)) =
          (mp.map (fun p => p.payment_value)).sum / (mp.length : Rat) := by
        rw [hvals, meanQ, List.length_map]
      rw [← this]
      exact hmean
    rw [hcps]
    exact find?_of_mem_nodup _ m _ houtnodup
      (mem_mergeAllMonths_of_mem _ hstatnodup m _ hm1 hm2 hmean2)

/-- Claim C2, witness: two orders in month 3 with payments 100 and 50 plus
an orphan payment, evaluated at month 3. -/
theorem payment_avg_zero_or_mean_witness :
    ([({ order_id := 1, payment_value := 100 } : PaymentRow), ⟨2, 50⟩, ⟨99, 7⟩].filter
        (fun p => paymentMonth
          [({ order_id := 1, customer_id := 10,
              order_purchase_timestamp := ⟨2018, 3, 5, 0⟩,
              year_month := (2018, 3), month := 3 } : MonthlyRow),
           { order_id := 2, customer_id := 10,
             order_purchase_timestamp := ⟨2018, 3, 9, 0⟩,
             year_month := (2018, 3), month := 3 }] p == some 3) = [] →
      (calculate_payment_stats
          [({ order_id := 1, customer_id := 10,
              order_purchase_timestamp := ⟨2018, 3, 5, 0⟩,
              year_month := (2018, 3), month := 3 } : MonthlyRow),
           { order_id := 2, customer_id := 10,
             order_purchase_timestamp := ⟨2018, 3, 9, 0⟩,
             year_month := (2018, 3), month := 3 }]
          [({ order_id := 1, payment_value := 100 } : PaymentRow), ⟨2, 50⟩, ⟨99, 7⟩]).find?
        (fun s => s.1 == 3) = some (3, 0)) ∧
    (([({ order_id := 1, payment_value := 100 } : PaymentRow), ⟨2, 50⟩, ⟨99, 7⟩].filter
        (fun p => paymentMonth
          [({ order_id := 1, customer_id := 10,
              order_purchase_timestamp := ⟨2018, 3, 5, 0⟩,
              year_month := (2018, 3), month := 3 } : MonthlyRow),
           { order_id := 2, customer_id := 10,
             order_purchase_timestamp := ⟨2018, 3, 9, 0⟩,
             year_month := (2018, 3), month := 3 }] p == some 3)) ≠ [] →
      (calculate_payment_stats
          [({ order_id := 1, customer_id := 10,
              order_purchase_timestamp := ⟨2018, 3, 5, 0⟩,
              year_month := (2018, 3), month := 3 } : MonthlyRow),
           { order_id := 2, customer_id := 10,
             order_purchase_timestamp := ⟨2018, 3, 9, 0⟩,
             year_month := (2018, 3), month := 3 }]
          [({ order_id := 1, payment_value := 100 } : PaymentRow), ⟨2, 50⟩, ⟨99, 7⟩]).find?
        (fun s => s.1 == 3) =
        some (3,
          (([({ order_id := 1, payment_value := 100 } : PaymentRow), ⟨2, 50⟩, ⟨99, 7⟩].filter
              (fun p => paymentMonth
                [({ order_id := 1, customer_id := 10,
                    order_purchase_timestamp := ⟨2018, 3, 5, 0⟩,
                    year_month := (2018, 3), month := 3 } : MonthlyRow),
                 { order_id := 2, customer_id := 10,
                   order_purchase_timestamp := ⟨2018, 3, 9, 0⟩,
                   year_month := (2018, 3), month := 3 }] p == some 3)).map
            (fun p => p.payment_value)).sum /
          (([({ order_id := 1, payment_value := 100 } : PaymentRow), ⟨2, 50⟩, ⟨99, 7⟩].filter
              (fun p => paymentMonth
                [({ order_id := 1, customer_id := 10,
                    order_purchase_timestamp := ⟨2018, 3, 5, 0⟩,
                    year_month := (2018, 3), month := 3 } : MonthlyRow),
                 { order_id := 2, customer_id := 10,
                   order_purchase_timestamp := ⟨2018, 3, 9, 0⟩,
                   year_month := (2018, 3), month := 3 }] p == some 3)).length : Rat))) :=
  payment_avg_zero_or_mean _ _ 3 (by decide) (by decide) (by decide)

/-- Modelled from the spec: the "diagnostic orphan count" the Monthly
Aggregator is said to report — the number of filtered payment rows whose
`order_id` is absent from the filtered order set.  The source computes no
such diagnostic; this definition exists only to state that fact. -/
def orphanCount (monthly_data : List MonthlyRow)
    (payments_filtered : List PaymentRow) : Nat :=
  (payments_filtered.filter (fun p =>
    !(monthly_data.any (fun o => o.order_id == p.order_id)))).length

theorem filterMap_fst_filter_isSome (rows : List (Option Nat × Rat)) :
    (rows.filter (fun r => r.1.isSome)).filterMap (fun r => r.1) =
      rows.filterMap (fun r => r.1) := by
  induction rows with
  | nil => rfl
  | cons r t ih =>
    obtain ⟨k, v⟩ := r
    cases k with
    | none =>
      rw [List.filter_cons_of_neg (by simp), List.filterMap_cons]
      exact ih
    | some m =>
      rw [List.filter_cons_of_pos (by simp), List.filterMap_cons, List.filterMap_cons]
      simp only [ih]

theorem filter_key_filter_isSome (rows : List (Option Nat × Rat)) (m : Nat) :
    (rows.filter (fun r => r.1.isSome)).filter (fun r => r.1 == some m) =
      rows.filter (fun r => r.1 == some m) := by
  rw [List.filter_filter]
  apply List.filter_congr
  intro r _
  obtain ⟨k, v⟩ := r
  cases k with
  | none => simp
  | some j => simp

theorem groupbyMeanMonth_filter_isSome (rows : List (Option Nat × Rat)) :
    groupbyMeanMonth (rows.filter (fun r => r.1.isSome)) = groupbyMeanMonth rows := by
  unfold groupbyMeanMonth
  rw [filterMap_fst_filter_isSome]
  apply List.map_congr_left
  intro m _
  rw [filter_key_filter_isSome]

theorem mergePaymentsMonths_cons (p : PaymentRow) (t : List PaymentRow)
    (monthly_data : List MonthlyRow) :
    mergePaymentsMonths (p :: t) monthly_data =
      (match monthly_data.filter (fun o => o.order_id == p.order_id) with
        | [] => [(p, none)]
        | ms => ms.map (fun o => (p, some o.month))) ++
        mergePaymentsMonths t monthly_data := by
  rw [mergePaymentsMonths, List.flatMap_cons, ← mergePaymentsMonths]

theorem mergePaymentsMonths_filter_kept (monthly_data : List MonthlyRow) :
    ∀ payments_filtered : List PaymentRow,
      mergePaymentsMonths
          (payments_filtered.filter (fun p =>
            monthly_data.any (fun o => o.order_id == p.order_id))) monthly_data =
        (mergePaymentsMonths payments_filtered monthly_data).filter
          (fun r => r.2.isSome) := by
  intro pf
  induction pf with
  | nil => rfl
  | cons p t ih =>
    by_cases hk : monthly_data.any (fun o => o.order_id == p.order_id) = true
    · rw [@List.filter_cons_of_pos _
          (fun q : PaymentRow => monthly_data.any (fun o => o.order_id == q.order_id))
          p t hk,
        mergePaymentsMonths_cons, ih, mergePaymentsMonths_cons, List.filter_append]
      have hne : monthly_data.filter (fun o => o.order_id == p.order_id) ≠ [] := by
        rw [List.any_eq_true] at hk
        obtain ⟨o, ho, hop⟩ := hk
        intro habs
        have : o ∈ monthly_data.filter (fun o => o.order_id == p.order_id) :=
          List.mem_filter.mpr ⟨ho, hop⟩
        rw [habs] at this
        cases this
      congr 1
      cases hms : monthly_data.filter (fun o => o.order_id == p.order_id) with
      | nil => exact absurd hms hne
      | cons x xs =>
        show List.map (fun o => (p, some o.month)) (x :: xs) =
          List.filter (fun r => r.2.isSome)
            (List.map (fun o => (p, some o.month)) (x :: xs))
        symm
        rw [List.filter_eq_self]
        intro a ha
        rw [List.mem_map] at ha
        obtain ⟨o, -, rfl⟩ := ha
        rfl
    · have hnil : monthly_data.filter (fun o => o.order_id == p.order_id) = [] := by
        rw [List.filter_eq_nil_iff]
        intro o ho hop
        exact hk (List.any_eq_true.mpr ⟨o, ho, hop⟩)
      rw [@List.filter_cons_of_neg _
          (fun q : PaymentRow => monthly_data.any (fun o => o.order_id == q.order_id))
          p t hk,
        ih, mergePaymentsMonths_cons, List.filter_append, hnil]
      rfl

theorem calculate_payment_stats_drop_orphans (monthly_data : List MonthlyRow)
    (payments_filtered : List PaymentRow) :
    calculate_payment_stats monthly_data payments_filtered =
      calculate_payment_stats monthly_data
        (payments_filtered.filter (fun p =>
          monthly_data.any (fun o => o.order_id == p.order_id))) := by
  show mergeAllMonths (groupbyMeanMonth
      ((mergePaymentsMonths payments_filtered monthly_data).map
        (fun r => (r.2, r.1.payment_value)))) =
    mergeAllMonths (groupbyMeanMonth
      ((mergePaymentsMonths (payments_filtered.filter (fun p =>
          monthly_data.any (fun o => o.order_id == p.order_id))) monthly_data).map
        (fun r => (r.2, r.1.payment_value))))
  rw [mergePaymentsMonths_filter_kept]
  congr 1
  rw [← groupbyMeanMonth_filter_isSome
    ((mergePaymentsMonths payments_filtered monthly_data).map
      (fun r => (r.2, r.1.payment_value)))]
  congr 1
  rw [List.filter_map]
  rfl

/-- Claim C7, amended: a payment row whose `order_id` is absent from the
filtered order set is excluded from every month's average — the output of
`calculate_payment_stats` is unchanged when orphan payments are removed up
front — but the orphans are dropped silently: the code produces no
diagnostic orphan count. -/
theorem payment_stats_exclude_orphans (monthly_data : List MonthlyRow)
    (payments_filtered : List PaymentRow) :
    calculate_payment_stats monthly_data payments_filtered =
      calculate_payment_stats monthly_data
        (payments_filtered.filter (fun p =>
          monthly_data.any (fun o => o.order_id == p.order_id))) :=
  calculate_payment_stats_drop_orphans monthly_data payments_filtered

/-- Claim C7, counterexample: the claim says the number of orphans is
reported in a diagnostic orphan count.  It is not: two payment inputs with
different orphan counts (1 versus 2) produce identical
`calculate_payment_stats` output, so no part of the function's result
reports the orphan count. -/
theorem orphan_count_not_reported_cex :
    calculate_payment_stats
        [({ order_id := 1, customer_id := 10,
            order_purchase_timestamp := ⟨2018, 3, 5, 0⟩,
            year_month := (2018, 3), month := 3 } : MonthlyRow)]
        [({ order_id := 1, payment_value := 100 } : PaymentRow), ⟨99, 7⟩] =
      calculate_payment_stats
        [({ order_id := 1, customer_id := 10,
            order_purchase_timestamp := ⟨2018, 3, 5, 0⟩,
            year_month := (2018, 3), month := 3 } : MonthlyRow)]
        [({ order_id := 1, payment_value := 100 } : PaymentRow), ⟨99, 7⟩, ⟨98, 3⟩] ∧
      orphanCount
        [({ order_id := 1, customer_id := 10,
            order_purchase_timestamp := ⟨2018, 3, 5, 0⟩,
            year_month := (2018, 3), month := 3 } : MonthlyRow)]
        [({ order_id := 1, payment_value := 100 } : PaymentRow), ⟨99, 7⟩] ≠
      orphanCount
        [({ order_id := 1, customer_id := 10,
            order_purchase_timestamp := ⟨2018, 3, 5, 0⟩,
            year_month := (2018, 3), month := 3 } : MonthlyRow)]
        [({ order_id := 1, payment_value := 100 } : PaymentRow), ⟨99, 7⟩, ⟨98, 3⟩] := by
  constructor
  · rw [calculate_payment_stats_drop_orphans, calculate_payment_stats_drop_orphans]
    rfl
  · decide

/-- Claim C4, counterexample: the claim says the scope filter itself fails
with an `InvalidWindow` error on an inverted window rather than silently
returning an empty result set.  It does not fail: called directly with
`start = 2018-02-01 > end = 2018-01-01` on a non-empty São Paulo dataset, it
silently returns the empty collections. -/
theorem filter_inverted_window_silent_empty_cex :
    filter_sao_paulo_data
      [{ order_id := 1, customer_id := 10,
         order_purchase_timestamp := ⟨2018, 1, 15, 0⟩ }]
      [{ customer_id := 10, customer_city := "sao paulo", customer_state := "SP" }]
      [{ order_id := 1, payment_value := 5 }]
      [{ order_id := 1, review_score := 4, review_creation_date := ⟨2018, 1, 16, 0⟩ }]
      ⟨2018, 2, 1⟩ ⟨2018, 1, 1⟩ = ([], [], []) := by decide

/-- Claim C4, amended: the inverted-window validation lives in the caller —
`main` rejects `start_date > end_date` before invoking the scope filter and
shows only the validation error, so no partial results are produced; the
filter itself, invoked directly with an inverted window, returns empty
collections without failing. -/
theorem main_rejects_inverted_window (orders : List OrderRow)
    (customers : List CustomerRow) (payments : List PaymentRow)
    (reviews : List ReviewRow) (start_date end_date : Date)
    (h : dateLt end_date start_date = true) :
    main_check orders customers payments reviews start_date end_date =
      .invalidWindow := by
  simp [main_check, h]

/-- Claim C4, witness: the inverted window of the spec's scenario is
rejected by `main` on a concrete dataset. -/
theorem main_rejects_inverted_window_witness :
    main_check
      [{ order_id := 1, customer_id := 10,
         order_purchase_timestamp := ⟨2018, 1, 15, 0⟩ }]
      [{ customer_id := 10, customer_city := "sao paulo", customer_state := "SP" }]
      [] [] ⟨2018, 2, 1⟩ ⟨2018, 1, 1⟩ = .invalidWindow :=
  main_rejects_inverted_window _ _ _ _ _ _ (by decide)

/-! ### Store lemmas and frame-level denotations -/

theorem Store.read_append_lt (s t : Store) (a : Nat) (h : a < s.length) :
    (s ++ t).read a = s.read a := by
  simp [Store.read, List.getElem?_append, h]

theorem Store.read_append_self (s : Store) (f : Frame) :
    (s ++ [f]).read s.length = f := by
  simp [Store.read, List.getElem?_append]

theorem Store.write_append_self (s : Store) (f g : Frame) :
    (s ++ [f]).write s.length g = s ++ [g] := by
  simp [Store.write, List.set_append]

theorem Store.read_stack2 (s : Store) (f g : Frame) :
    ((s ++ [f]) ++ [g]).read s.length = f := by
  rw [Store.read_append_lt _ _ _ (by simp), Store.read_append_self]

theorem Store.read_stack3 (s : Store) (f g h : Frame) :
    (((s ++ [f]) ++ [g]) ++ [h]).read s.length = f := by
  rw [Store.read_append_lt _ _ _ (by simp), Store.read_stack2]

/-- The frame of São Paulo orders in the window (frame-level denotation of
the order selection in `filter_sao_paulo_data`). -/
def spOrdersFrame (fo fc : Frame) (sd ed : Date) : Frame :=
  (fo.filter (fun r =>
    (((fc.filter (fun q => getV q "customer_state" == .str "SP")).map
      (fun q => getV q "customer_id")).dedup).contains
        (getV r "customer_id"))).filter (fun r =>
    vtsLe (.ts (dateToTs sd)) (getV r "order_purchase_timestamp") &&
    vtsLe (getV r "order_purchase_timestamp") (.ts (dateToTs ed)))

/-- The surviving order ids (frame-level). -/
def spOrderIdsVals (fo fc : Frame) (sd ed : Date) : List Val :=
  ((spOrdersFrame fo fc sd ed).map (fun r => getV r "order_id")).dedup

/-- The filtered payments frame (frame-level). -/
def spPaymentsFrame (fo fc fp : Frame) (sd ed : Date) : Frame :=
  fp.filter (fun r => (spOrderIdsVals fo fc sd ed).contains (getV r "order_id"))

/-- The filtered reviews frame (frame-level). -/
def spReviewsFrame (fo fc fr : Frame) (sd ed : Date) : Frame :=
  (fr.filter (fun r =>
    (spOrderIdsVals fo fc sd ed).contains (getV r "order_id"))).filter (fun r =>
    vtsLe (.ts (dateToTs sd)) (getV r "review_creation_date") &&
    vtsLe (getV r "review_creation_date") (.ts (dateToTs ed)))

/-- The monthly order frame `process_monthly_data` derives (frame-level). -/
def processFrame (f : Frame) : Frame :=
  setColV (setColV f "year_month"
    (fun r => periodV (getV r "order_purchase_timestamp")))
    "month" (fun r => monthV (getV r "order_purchase_timestamp"))

/-- The payment statistics frame (frame-level). -/
def paymentStatsFrame (fmd fpf : Frame) : Frame :=
  fillnaZero (leftMergeCol allMonthsFrame
    (groupbyMeanV (leftMergeCol fpf (fmd.map (fun r =>
      [("order_id", getV r "order_id"), ("month", getV r "month")]))
      "order_id" "month") "month" "payment_value" "avg_payment")
    "month" "avg_payment")

/-- The reviews frame with its derived month column (frame-level). -/
def reviewsMonthFrame (f : Frame) : Frame :=
  setColV f "month" (fun r => monthV (getV r "review_creation_date"))

/-- The review statistics frame (frame-level). -/
def reviewStatsFrame (f : Frame) : Frame :=
  fillnaZero (leftMergeCol allMonthsFrame
    (groupbyMeanV (reviewsMonthFrame f) "month" "review_score" "avg_score")
    "month" "avg_score")

theorem filter_st_shape (s : Store) (o c p r : Nat) (sd ed : Date) :
    filter_sao_paulo_data_st s o c p r sd ed =
      (((s ++ [spOrdersFrame (s.read o) (s.read c) sd ed]) ++
          [spPaymentsFrame (s.read o) (s.read c) (s.read p) sd ed]) ++
          [spReviewsFrame (s.read o) (s.read c) (s.read r) sd ed],
        (s.length,
          (s ++ [spOrdersFrame (s.read o) (s.read c) sd ed]).length,
          ((s ++ [spOrdersFrame (s.read o) (s.read c) sd ed]) ++
            [spPaymentsFrame (s.read o) (s.read c) (s.read p) sd ed]).length)) := rfl

theorem process_st_shape (s : Store) (ofi : Nat) :
    process_monthly_data_st s ofi = (s ++ [processFrame (s.read ofi)], s.length) := by
  simp only [process_monthly_data_st, Store.alloc]
  rw [Store.read_append_self, Store.write_append_self, Store.read_append_self,
    Store.write_append_self]
  rfl

theorem payment_st_shape (s : Store) (md pf : Nat) :
    calculate_payment_stats_st s md pf =
      (s ++ [paymentStatsFrame (s.read md) (s.read pf)], s.length) := rfl

theorem review_st_shape (s : Store) (md rf : Nat) :
    calculate_review_stats_st s md rf =
      ((s ++ [reviewsMonthFrame (s.read rf)]) ++ [reviewStatsFrame (s.read rf)],
        (s ++ [reviewsMonthFrame (s.read rf)]).length) := by
  simp only [calculate_review_stats_st, Store.alloc]
  rw [Store.read_append_self, Store.write_append_self, Store.read_append_self]
  rfl

/-- The two statistics frames the pipeline hands to the charts, as a pure
function of the four loaded frames. -/
def outFrames (fo fc fp fr : Frame) (sd ed : Date) : Frame × Frame :=
  (paymentStatsFrame (processFrame (spOrdersFrame fo fc sd ed))
    (spPaymentsFrame fo fc fp sd ed),
   reviewStatsFrame (spReviewsFrame fo fc fr sd ed))

theorem run_pipeline_st_read_out (s : Store) (o c p r : Nat) (sd ed : Date) :
    ((run_pipeline_st s o c p r sd ed).1.read (run_pipeline_st s o c p r sd ed).2.1 =
      (outFrames (s.read o) (s.read c) (s.read p) (s.read r) sd ed).1) ∧
    ((run_pipeline_st s o c p r sd ed).1.read (run_pipeline_st s o c p r sd ed).2.2 =
      (outFrames (s.read o) (s.read c) (s.read p) (s.read r) sd ed).2) := by
  constructor <;>
    simp only [run_pipeline_st, filter_st_shape, process_st_shape, payment_st_shape,
      review_st_shape, Store.read_append_self, Store.read_stack2, Store.read_stack3,
      outFrames]

theorem run_pipeline_st_preserves (s : Store) (o c p r : Nat) (sd ed : Date)
    (a : Nat) (h : a < s.length) :
    (run_pipeline_st s o c p r sd ed).1.read a = s.read a := by
  simp only [run_pipeline_st, filter_st_shape, process_st_shape, payment_st_shape,
    review_st_shape, Store.read_append_self, Store.read_stack2, Store.read_stack3]
  rw [Store.read_append_lt _ _ _
      (by simp only [List.length_append, List.length_cons, List.length_nil]; omega),
    Store.read_append_lt _ _ _
      (by simp only [List.length_append, List.length_cons, List.length_nil]; omega),
    Store.read_append_lt _ _ _
      (by simp only [List.length_append, List.length_cons, List.length_nil]; omega),
    Store.read_append_lt _ _ _
      (by simp only [List.length_append, List.length_cons, List.length_nil]; omega),
    Store.read_append_lt _ _ _
      (by simp only [List.length_append, List.length_cons, List.length_nil]; omega),
    Store.read_append_lt _ _ _
      (by simp only [List.length_append, List.length_cons, List.length_nil]; omega),
    Store.read_append_lt _ _ _ h]

/-- Claim C10: `filter_sao_paulo_data`, `process_monthly_data`,
`calculate_payment_stats` and `calculate_review_stats` leave their input
tables unchanged: in the store embedding, where pandas selections, merges
and `.copy()` allocate fresh frames and column assignment mutates in place,
every frame allocated before the call reads the same after it — the derived
`year_month` and `month` columns land only on fresh copies or merge
results. -/
theorem pipeline_functions_leave_inputs_unchanged (s : Store)
    (o c p r md pf rf ofi : Nat) (sd ed : Date) (a : Nat) (h : a < s.length) :
    ((filter_sao_paulo_data_st s o c p r sd ed).1.read a = s.read a) ∧
    ((process_monthly_data_st s ofi).1.read a = s.read a) ∧
    ((calculate_payment_stats_st s md pf).1.read a = s.read a) ∧
    ((calculate_review_stats_st s md rf).1.read a = s.read a) := by
  refine ⟨?_, ?_, ?_, ?_⟩
  · rw [filter_st_shape]
    rw [Store.read_append_lt _ _ _
        (by simp only [List.length_append, List.length_cons, List.length_nil]; omega),
      Store.read_append_lt _ _ _
        (by simp only [List.length_append, List.length_cons, List.length_nil]; omega),
      Store.read_append_lt _ _ _ h]
  · rw [process_st_shape]
    exact Store.read_append_lt _ _ _ h
  · rw [payment_st_shape]
    exact Store.read_append_lt _ _ _ h
  · rw [review_st_shape]
    rw [Store.read_append_lt _ _ _
        (by simp only [List.length_append, List.length_cons, List.length_nil]; omega),
      Store.read_append_lt _ _ _ h]

/-- Claim C10, witness: a store holding one frame is unchanged at address 0
by all four functions. -/
theorem pipeline_functions_leave_inputs_unchanged_witness :
    ((filter_sao_paulo_data_st [[]] 0 0 0 0 ⟨2018, 1, 1⟩ ⟨2018, 12, 31⟩).1.read 0 =
      Store.read [[]] 0) ∧
    ((process_monthly_data_st [[]] 0).1.read 0 = Store.read [[]] 0) ∧
    ((calculate_payment_stats_st [[]] 0 0).1.read 0 = Store.read [[]] 0) ∧
    ((calculate_review_stats_st [[]] 0 0).1.read 0 = Store.read [[]] 0) :=
  pipeline_functions_leave_inputs_unchanged [[]] 0 0 0 0 0 0 0 0
    ⟨2018, 1, 1⟩ ⟨2018, 12, 31⟩ 0 (by decide)

/-- Claim C9: with the loaded tables held in the store, invoking the full
filter-and-aggregate pipeline twice with identical inputs (same loaded
frames, same window) yields identical output tables — the second run's two
statistics frames read byte-identically to the first run's, because every
invocation only allocates fresh frames and recomputes from the unchanged
inputs. -/
theorem pipeline_rerun_identical (s : Store) (o c p r : Nat) (sd ed : Date)
    (ho : o < s.length) (hc : c < s.length) (hp : p < s.length)
    (hr : r < s.length) :
    ((run_pipeline_st (run_pipeline_st s o c p r sd ed).1 o c p r sd ed).1.read
        (run_pipeline_st (run_pipeline_st s o c p r sd ed).1 o c p r sd ed).2.1 =
      (run_pipeline_st s o c p r sd ed).1.read
        (run_pipeline_st s o c p r sd ed).2.1) ∧
    ((run_pipeline_st (run_pipeline_st s o c p r sd ed).1 o c p r sd ed).1.read
        (run_pipeline_st (run_pipeline_st s o c p r sd ed).1 o c p r sd ed).2.2 =
      (run_pipeline_st s o c p r sd ed).1.read
        (run_pipeline_st s o c p r sd ed).2.2) := by
  have h1 := run_pipeline_st_read_out s o c p r sd ed
  have h2 := run_pipeline_st_read_out (run_pipeline_st s o c p r sd ed).1 o c p r sd ed
  rw [h1.1, h1.2, h2.1, h2.2,
    run_pipeline_st_preserves s o c p r sd ed o ho,
    run_pipeline_st_preserves s o c p r sd ed c hc,
    run_pipeline_st_preserves s o c p r sd ed p hp,
    run_pipeline_st_preserves s o c p r sd ed r hr]
  exact ⟨rfl, rfl⟩

/-- Claim C9, witness: a store holding the four loaded frames at addresses
0..3, rerun over the same window. -/
theorem pipeline_rerun_identical_witness :
    ((run_pipeline_st (run_pipeline_st [[], [], [], []] 0 1 2 3
          ⟨2018, 1, 1⟩ ⟨2018, 12, 31⟩).1 0 1 2 3 ⟨2018, 1, 1⟩ ⟨2018, 12, 31⟩).1.read
        (run_pipeline_st (run_pipeline_st [[], [], [], []] 0 1 2 3
          ⟨2018, 1, 1⟩ ⟨2018, 12, 31⟩).1 0 1 2 3 ⟨2018, 1, 1⟩ ⟨2018, 12, 31⟩).2.1 =
      (run_pipeline_st [[], [], [], []] 0 1 2 3 ⟨2018, 1, 1⟩ ⟨2018, 12, 31⟩).1.read
        (run_pipeline_st [[], [], [], []] 0 1 2 3 ⟨2018, 1, 1⟩ ⟨2018, 12, 31⟩).2.1) ∧
    ((run_pipeline_st (run_pipeline_st [[], [], [], []] 0 1 2 3
          ⟨2018, 1, 1⟩ ⟨2018, 12, 31⟩).1 0 1 2 3 ⟨2018, 1, 1⟩ ⟨2018, 12, 31⟩).1.read
        (run_pipeline_st (run_pipeline_st [[], [], [], []] 0 1 2 3
          ⟨2018, 1, 1⟩ ⟨2018, 12, 31⟩).1 0 1 2 3 ⟨2018, 1, 1⟩ ⟨2018, 12, 31⟩).2.2 =
      (run_pipeline_st [[], [], [], []] 0 1 2 3 ⟨2018, 1, 1⟩ ⟨2018, 12, 31⟩).1.read
        (run_pipeline_st [[], [], [], []] 0 1 2 3 ⟨2018, 1, 1⟩ ⟨2018, 12, 31⟩).2.2) :=
  pipeline_rerun_identical [[], [], [], []] 0 1 2 3 ⟨2018, 1, 1⟩ ⟨2018, 12, 31⟩
    (by decide) (by decide) (by decide) (by decide)

end Dashboard
